import Mathlib

/-!
Shallow embedding of the mmw-todo core: the domain value objects, the Todo
aggregate with its state machine and event queue, and the application
service that orchestrates validation, persistence and event dispatch.

Modelling conventions:
- Instants of time (Go time.Time) are integers; time.Now() becomes an
  explicit now argument threaded through every operation. The unit is one
  second where the spec speaks of seconds.
- Go methods that mutate the receiver and return error become functions
  Todo -> ... -> Except DomainError Todo; on the error paths the Go code
  returns before mutating, so the caller keeps the unchanged value.
- Go len(s) on a string counts UTF-8 bytes; utf8Len mirrors that.
- The Repository and EventDispatcher ports are external adapters; a
  PortEnv record fixes the outcome of each port call and the service
  functions log the sequence of calls they perform.
-/

/-- Time instant, modelling Go time.Time through its linear order. -/
abbrev Instant := Int

/-- Domain errors of internal/domain/todo/errors.go: the validation and
business-rule sentinels plus the two structured error types. -/
inductive DomainError where
  | validationError (field message : String)
  | businessRuleError (rule message : String)
  | errInvalidTitle
  | errInvalidDueDate
  | errInvalidPriority
  | errInvalidStatus
  | errInvalidID
  | errCannotCompleteCancelled
  | errCannotModifyCompleted
  | errTodoNotFound
  | errTodoAlreadyExists
  | errInvalidStatusTransition
deriving DecidableEq

/-- A Go error value as the application layer sees it: a domain error, an
opaque adapter failure, or a fmt.Errorf wrapping with a context message. -/
inductive GoError where
  | domain (e : DomainError)
  | adapterFailure (msg : String)
  | wrapf (context : String) (e : GoError)
deriving DecidableEq

/-- TaskStatus from the value objects file: pending, in_progress,
completed, cancelled. -/
inductive TaskStatus where
  | pending
  | inProgress
  | completed
  | cancelled
deriving DecidableEq, Fintype

/-- The String method of TaskStatus (canonical lowercase form). -/
def TaskStatus.String : TaskStatus → String
  | .pending => "pending"
  | .inProgress => "in_progress"
  | .completed => "completed"
  | .cancelled => "cancelled"

/-- ASCII lowercasing, modelling strings.ToLower on the inputs the
service receives (all enum strings are ASCII). -/
def lowerStr (s : String) : String :=
  String.mk (s.data.map Char.toLower)

/-- NewTaskStatus: lowercases the input and accepts exactly the four
canonical strings. -/
def NewTaskStatus (status : String) : Except DomainError TaskStatus :=
  match lowerStr status with
  | "pending" => .ok .pending
  | "in_progress" => .ok .inProgress
  | "completed" => .ok .completed
  | "cancelled" => .ok .cancelled
  | _ => .error .errInvalidStatus

/-- IsCompleted method of TaskStatus. -/
def TaskStatus.IsCompleted (s : TaskStatus) : Bool :=
  s == .completed

/-- IsCancelled method of TaskStatus. -/
def TaskStatus.IsCancelled (s : TaskStatus) : Bool :=
  s == .cancelled

/-- CanTransitionTo from the value objects file: completed only to
pending; cancelled not to completed; everything else allowed. -/
def TaskStatus.CanTransitionTo (s newStatus : TaskStatus) : Bool :=
  if s == .completed && newStatus != .pending then false
  else if s == .cancelled && newStatus == .completed then false
  else true

/-- Priority enumeration: low, medium, high, urgent. -/
inductive Priority where
  | low
  | medium
  | high
  | urgent
deriving DecidableEq

/-- The String method of Priority. -/
def Priority.String : Priority → String
  | .low => "low"
  | .medium => "medium"
  | .high => "high"
  | .urgent => "urgent"

/-- NewPriority: lowercases the input and accepts exactly the four
canonical strings. -/
def NewPriority (priority : String) : Except DomainError Priority :=
  match lowerStr priority with
  | "low" => .ok .low
  | "medium" => .ok .medium
  | "high" => .ok .high
  | "urgent" => .ok .urgent
  | _ => .error .errInvalidPriority

/-- DefaultPriority returns Medium. -/
def DefaultPriority : Priority :=
  .medium

/-- Whitespace predicate of strings.TrimSpace restricted to the Latin-1
range handled by its fast path. -/
def isSpaceChar (c : Char) : Bool :=
  c = ' ' || c = '\t' || c = '\n' || c = '\x0b' || c = '\x0c' || c = '\r' ||
  c = '\x85' || c = '\xa0'

/-- strings.TrimSpace: drop leading and trailing whitespace. -/
def trimSpace (s : String) : String :=
  String.mk (((s.data.dropWhile isSpaceChar).reverse.dropWhile isSpaceChar).reverse)

/-- Go len on a string: the number of UTF-8 bytes. -/
def utf8Len (s : String) : Nat :=
  (s.data.map Char.utf8Size).sum

/-- TaskTitle value object: holds the validated, trimmed title text. -/
structure TaskTitle where
  value : String
deriving DecidableEq

/-- NewTaskTitle: trim, then reject the empty and the over-200-byte
trimmed forms, otherwise keep the trimmed text. -/
def NewTaskTitle (title : String) : Except DomainError TaskTitle :=
  let trimmed := trimSpace title
  if utf8Len trimmed = 0 then
    .error (.validationError "title" "cannot be empty")
  else if utf8Len trimmed > 200 then
    .error (.validationError "title" "cannot exceed 200 characters")
  else
    .ok ⟨trimmed⟩

/-- The String method of TaskTitle. -/
def TaskTitle.String (t : TaskTitle) : String :=
  t.value

/-- TodoID is a string wrapping a UUID. -/
abbrev TodoID := String

/-- Hexadecimal digit test for the UUID format check. -/
def isHexChar (c : Char) : Bool :=
  ('0' ≤ c && c ≤ '9') || ('a' ≤ c && c ≤ 'f') || ('A' ≤ c && c ≤ 'F')

/-- Canonical 8-4-4-4-12 UUID format check. Models the external
github.com/google/uuid Parse for the canonical string form this
repository produces and exchanges. -/
def isCanonicalUUID (s : String) : Bool :=
  s.data.length == 36 &&
  (List.range 36).all (fun i =>
    if i == 8 || i == 13 || i == 18 || i == 23 then s.data.getD i ' ' == '-'
    else isHexChar (s.data.getD i ' '))

/-- ParseTodoID: reject the empty string and malformed UUIDs. -/
def ParseTodoID (id : String) : Except DomainError TodoID :=
  if id = "" then .error .errInvalidID
  else if !isCanonicalUUID id then .error .errInvalidID
  else .ok id

/-- DueDate value object: a validated future timestamp. -/
structure DueDate where
  value : Instant
deriving DecidableEq

/-- NewDueDate: the date must be strictly after now (date.After(now)). -/
def NewDueDate (date : Instant) (now : Instant) : Except DomainError DueDate :=
  if now < date then .ok ⟨date⟩ else .error .errInvalidDueDate

/-- The Time accessor of DueDate. -/
def DueDate.Time (d : DueDate) : Instant :=
  d.value

/-- IsPast: now is after the stored value. -/
def DueDate.IsPast (d : DueDate) (now : Instant) : Bool :=
  decide (d.value < now)

/-- IsApproaching: time remaining until the due date is at most the
window. -/
def DueDate.IsApproaching (d : DueDate) (within : Int) (now : Instant) : Bool :=
  decide (d.value - now ≤ within)

/-- Domain events, one constructor per event type of events.go, each
carrying the aggregate id, the occurrence instant and its payload. -/
inductive DomainEvent where
  | todoCreated (aggregateID : TodoID) (occurredAt : Instant)
      (title description priority : String) (dueDate : Option Instant)
  | todoUpdated (aggregateID : TodoID) (occurredAt : Instant)
  | todoCompleted (aggregateID : TodoID) (occurredAt completedAt : Instant)
  | todoReopened (aggregateID : TodoID) (occurredAt : Instant) (previousStatus : String)
  | todoDeleted (aggregateID : TodoID) (occurredAt : Instant)
deriving DecidableEq

/-- NewTodoCreatedEvent: payload is the stringified title, description,
priority and the optional raw due-date instant. -/
def NewTodoCreatedEvent (id : TodoID) (now : Instant) (title : TaskTitle)
    (description : String) (priority : Priority) (dueDate : Option DueDate) : DomainEvent :=
  .todoCreated id now title.String description priority.String (dueDate.map DueDate.Time)

/-- NewTodoUpdatedEvent: carries only the aggregate id. -/
def NewTodoUpdatedEvent (id : TodoID) (now : Instant) : DomainEvent :=
  .todoUpdated id now

/-- NewTodoCompletedEvent: carries the completion instant. -/
def NewTodoCompletedEvent (id : TodoID) (now completedAt : Instant) : DomainEvent :=
  .todoCompleted id now completedAt

/-- NewTodoReopenedEvent: carries the stringified prior status. -/
def NewTodoReopenedEvent (id : TodoID) (now : Instant) (previousStatus : TaskStatus) : DomainEvent :=
  .todoReopened id now previousStatus.String

/-- NewTodoDeletedEvent: carries only the aggregate id. -/
def NewTodoDeletedEvent (id : TodoID) (now : Instant) : DomainEvent :=
  .todoDeleted id now

/-- The Todo aggregate root of internal/domain/todo/todo.go. -/
structure Todo where
  id : TodoID
  title : TaskTitle
  description : String
  status : TaskStatus
  priority : Priority
  dueDate : Option DueDate
  createdAt : Instant
  updatedAt : Instant
  completedAt : Option Instant
  events : List DomainEvent
deriving DecidableEq

/-- addEvent: append to the unpublished-events buffer. -/
def Todo.addEvent (t : Todo) (e : DomainEvent) : Todo :=
  { t with events := t.events ++ [e] }

/-- NewTodo factory: pending status, equal created and updated instants,
no completion instant, and one TodoCreated event. The generated UUID and
the current instant are passed in explicitly. -/
def NewTodo (id : TodoID) (now : Instant) (title : TaskTitle) (description : String)
    (priority : Priority) (dueDate : Option DueDate) : Todo :=
  Todo.addEvent
    { id := id, title := title, description := description, status := .pending,
      priority := priority, dueDate := dueDate, createdAt := now, updatedAt := now
      completedAt := none, events := [] }
    (NewTodoCreatedEvent id now title description priority dueDate)

/-- ReconstituteTodo: rebuild from stored data with an empty event
buffer. -/
def ReconstituteTodo (id : TodoID) (title : TaskTitle) (description : String)
    (status : TaskStatus) (priority : Priority) (dueDate : Option DueDate)
    (createdAt updatedAt : Instant) (completedAt : Option Instant) : Todo :=
  { id := id, title := title, description := description, status := status,
    priority := priority, dueDate := dueDate, createdAt := createdAt
    updatedAt := updatedAt, completedAt := completedAt, events := [] }

/-- Events accessor. -/
def Todo.Events (t : Todo) : List DomainEvent :=
  t.events

/-- ClearEvents: empty the unpublished-events buffer. -/
def Todo.ClearEvents (t : Todo) : Todo :=
  { t with events := [] }

/-- UpdateTitle: rejected on a completed todo, otherwise replaces the
title, refreshes updatedAt and enqueues a TodoUpdated event. -/
def Todo.UpdateTitle (t : Todo) (now : Instant) (newTitle : TaskTitle) : Except DomainError Todo :=
  if t.status.IsCompleted then .error .errCannotModifyCompleted
  else .ok (Todo.addEvent { t with title := newTitle, updatedAt := now } (NewTodoUpdatedEvent t.id now))

/-- UpdateDescription: rejected on a completed todo, otherwise replaces
the description, refreshes updatedAt and enqueues a TodoUpdated event. -/
def Todo.UpdateDescription (t : Todo) (now : Instant) (newDescription : String) : Except DomainError Todo :=
  if t.status.IsCompleted then .error .errCannotModifyCompleted
  else .ok (Todo.addEvent { t with description := newDescription, updatedAt := now } (NewTodoUpdatedEvent t.id now))

/-- UpdatePriority: rejected on a completed todo, otherwise replaces the
priority, refreshes updatedAt and enqueues a TodoUpdated event. -/
def Todo.UpdatePriority (t : Todo) (now : Instant) (newPriority : Priority) : Except DomainError Todo :=
  if t.status.IsCompleted then .error .errCannotModifyCompleted
  else .ok (Todo.addEvent { t with priority := newPriority, updatedAt := now } (NewTodoUpdatedEvent t.id now))

/-- UpdateDueDate: rejected on a completed todo, otherwise replaces the
optional due date, refreshes updatedAt and enqueues a TodoUpdated
event. -/
def Todo.UpdateDueDate (t : Todo) (now : Instant) (newDueDate : Option DueDate) : Except DomainError Todo :=
  if t.status.IsCompleted then .error .errCannotModifyCompleted
  else .ok (Todo.addEvent { t with dueDate := newDueDate, updatedAt := now } (NewTodoUpdatedEvent t.id now))

/-- UpdateStatus: consults CanTransitionTo; on success sets the status,
refreshes updatedAt and enqueues a TodoUpdated event. It does not touch
completedAt. -/
def Todo.UpdateStatus (t : Todo) (now : Instant) (newStatus : TaskStatus) : Except DomainError Todo :=
  if !(t.status.CanTransitionTo newStatus) then
    .error (.businessRuleError "status_transition"
      ("cannot transition from " ++ t.status.String ++ " to " ++ newStatus.String))
  else
    .ok (Todo.addEvent { t with status := newStatus, updatedAt := now } (NewTodoUpdatedEvent t.id now))

/-- Complete: error on cancelled, idempotent on completed, otherwise set
completed status, record the completion instant and enqueue a
TodoCompleted event. -/
def Todo.Complete (t : Todo) (now : Instant) : Except DomainError Todo :=
  if t.status.IsCancelled then .error .errCannotCompleteCancelled
  else if t.status.IsCompleted then .ok t
  else
    .ok (Todo.addEvent
      { t with status := .completed, completedAt := some now, updatedAt := now }
      (NewTodoCompletedEvent t.id now now))

/-- Reopen: no-op unless completed or cancelled; otherwise back to
pending, clear completedAt and enqueue a TodoReopened event holding the
prior status. -/
def Todo.Reopen (t : Todo) (now : Instant) : Except DomainError Todo :=
  if !t.status.IsCompleted && !t.status.IsCancelled then .ok t
  else
    .ok (Todo.addEvent
      { t with status := .pending, completedAt := none, updatedAt := now }
      (NewTodoReopenedEvent t.id now t.status))

/-- Cancel: rejected on completed, idempotent on cancelled, otherwise
set cancelled status and enqueue a TodoUpdated event. -/
def Todo.Cancel (t : Todo) (now : Instant) : Except DomainError Todo :=
  if t.status.IsCompleted then .error .errCannotModifyCompleted
  else if t.status.IsCancelled then .ok t
  else .ok (Todo.addEvent { t with status := .cancelled, updatedAt := now } (NewTodoUpdatedEvent t.id now))

/-- MarkInProgress: rejected on completed, idempotent on inProgress,
otherwise set inProgress status and enqueue a TodoUpdated event. -/
def Todo.MarkInProgress (t : Todo) (now : Instant) : Except DomainError Todo :=
  if t.status.IsCompleted then .error .errCannotModifyCompleted
  else if t.status == .inProgress then .ok t
  else .ok (Todo.addEvent { t with status := .inProgress, updatedAt := now } (NewTodoUpdatedEvent t.id now))

/-- IsDue: false without a due date, else the due date is past. -/
def Todo.IsDue (t : Todo) (now : Instant) : Bool :=
  match t.dueDate with
  | none => false
  | some d => d.IsPast now

/-- IsDueSoon: false without a due date, else the due date is within the
window. -/
def Todo.IsDueSoon (t : Todo) (within : Int) (now : Instant) : Bool :=
  match t.dueDate with
  | none => false
  | some d => d.IsApproaching within now

/-- Inbound DTO of the Create use case. -/
structure CreateTodoRequest where
  Title : String
  Description : String
  Priority : String
  DueDate : Option Instant
deriving DecidableEq

/-- Inbound DTO of the Update use case; a present DueDate equal to 0
models the Go zero time.Time sentinel that clears the due date. -/
structure UpdateTodoRequest where
  Title : Option String
  Description : Option String
  Priority : Option String
  DueDate : Option Instant
  Status : Option String
deriving DecidableEq

/-- Outbound DTO mapped from the aggregate. -/
structure TodoResponse where
  ID : String
  Title : String
  Description : String
  Status : String
  Priority : String
  DueDate : Option Instant
  CreatedAt : Instant
  UpdatedAt : Instant
deriving DecidableEq

/-- Filters DTO of the List use case. -/
structure ListFilters where
  Status : Option String
  Priority : Option String
  Limit : Option Int
  Offset : Option Int
deriving DecidableEq

/-- Response DTO of the List use case. -/
structure ListTodosResponse where
  Todos : List TodoResponse
  TotalCount : Nat
deriving DecidableEq

/-- MapTodoToResponse from the application DTO file. -/
def MapTodoToResponse (todo : Todo) : TodoResponse :=
  { ID := todo.id, Title := todo.title.String, Description := todo.description,
    Status := todo.status.String, Priority := todo.priority.String,
    DueDate := todo.dueDate.map DueDate.Time,
    CreatedAt := todo.createdAt, UpdatedAt := todo.updatedAt }

/-- MapTodosToResponse from the application DTO file. -/
def MapTodosToResponse (todos : List Todo) : List TodoResponse :=
  todos.map MapTodoToResponse

/-- One invocation of a Repository or EventDispatcher port. -/
inductive PortCall where
  | save (id : TodoID)
  | findByID (id : TodoID)
  | update (id : TodoID)
  | delete (id : TodoID)
  | findAll
  | dispatch (events : List DomainEvent)
deriving DecidableEq

/-- Fixed outcomes of the port calls of one use-case invocation: the
adapters behind the two ports are external, so each call result is an
oracle value. A field of none means the call succeeds. -/
structure PortEnv where
  saveResult : Option GoError
  findResult : Except GoError Todo
  updateResult : Option GoError
  deleteResult : Option GoError
  findAllResult : Except GoError (List Todo)
  dispatchResult : Option GoError

/-- Decidable equality for Except values, needed to evaluate concrete
service outcomes inside proofs. -/
instance exceptDecEq {ε : Type u} {α : Type v} [DecidableEq ε] [DecidableEq α] :
    DecidableEq (Except ε α)
  | .ok x, .ok y =>
    if h : x = y then .isTrue (by rw [h]) else .isFalse (by intro hc; cases hc; exact h rfl)
  | .ok _, .error _ => .isFalse (by intro hc; cases hc)
  | .error _, .ok _ => .isFalse (by intro hc; cases hc)
  | .error x, .error y =>
    if h : x = y then .isTrue (by rw [h]) else .isFalse (by intro hc; cases hc; exact h rfl)

/-- Result of a use case returning a todo: the returned value or error,
the final state of the local aggregate variable (none when no aggregate
was ever constructed or fetched), and the port calls made in order. -/
structure ServiceOutcome where
  result : Except GoError TodoResponse
  todo : Option Todo
  calls : List PortCall
deriving DecidableEq

/-- Result of the Delete use case. -/
structure DeleteOutcome where
  result : Except GoError Unit
  calls : List PortCall
deriving DecidableEq

/-- Result of the List use case. -/
structure ListOutcome where
  result : Except GoError ListTodosResponse
  calls : List PortCall
deriving DecidableEq

/-- The optional due-date block of CreateTodo: absent stays absent, a
present value must parse through NewDueDate. -/
def parseDueDateOpt (d : Option Instant) (now : Instant) : Except DomainError (Option DueDate) :=
  match d with
  | none => .ok none
  | some date => (NewDueDate date now).map some

/-- CreateTodo use case of the application service: validate title,
priority and due date, build the aggregate, Save, Dispatch, clear the
events, map the response. -/
def CreateTodo (env : PortEnv) (id : TodoID) (now : Instant) (req : CreateTodoRequest) : ServiceOutcome :=
  match NewTaskTitle req.Title with
  | .error e => { result := .error (.wrapf "invalid title" (.domain e)), todo := none, calls := [] }
  | .ok title =>
  match NewPriority req.Priority with
  | .error e => { result := .error (.wrapf "invalid priority" (.domain e)), todo := none, calls := [] }
  | .ok priority =>
  match parseDueDateOpt req.DueDate now with
  | .error e => { result := .error (.wrapf "invalid due date" (.domain e)), todo := none, calls := [] }
  | .ok dueDate =>
  let todo := NewTodo id now title req.Description priority dueDate
  match env.saveResult with
  | some e => { result := .error (.wrapf "saving todo" e), todo := some todo, calls := [.save todo.id] }
  | none =>
  match env.dispatchResult with
  | some e =>
    { result := .error (.wrapf "dispatching events" e), todo := some todo,
      calls := [.save todo.id, .dispatch todo.Events] }
  | none =>
    { result := .ok (MapTodoToResponse todo.ClearEvents), todo := some todo.ClearEvents,
      calls := [.save todo.id, .dispatch todo.Events] }

/-- GetTodo use case: parse the id, FindByID, map the response. -/
def GetTodo (env : PortEnv) (id : String) : ServiceOutcome :=
  match ParseTodoID id with
  | .error e => { result := .error (.wrapf "invalid todo ID" (.domain e)), todo := none, calls := [] }
  | .ok todoID =>
  match env.findResult with
  | .error e => { result := .error (.wrapf "finding todo" e), todo := none, calls := [.findByID todoID] }
  | .ok todo =>
    { result := .ok (MapTodoToResponse todo), todo := some todo, calls := [.findByID todoID] }

/-- The title block of UpdateTodo: when a title is provided it must
parse and the aggregate update must succeed. -/
def updateTitleStep (now : Instant) (req : UpdateTodoRequest) (todo : Todo) : Except GoError Todo :=
  match req.Title with
  | none => .ok todo
  | some s =>
    match NewTaskTitle s with
    | .error e => .error (.wrapf "invalid title" (.domain e))
    | .ok title =>
      match todo.UpdateTitle now title with
      | .error e => .error (.wrapf "updating title" (.domain e))
      | .ok t => .ok t

/-- The description block of UpdateTodo. -/
def updateDescriptionStep (now : Instant) (req : UpdateTodoRequest) (todo : Todo) : Except GoError Todo :=
  match req.Description with
  | none => .ok todo
  | some s =>
    match todo.UpdateDescription now s with
    | .error e => .error (.wrapf "updating description" (.domain e))
    | .ok t => .ok t

/-- The priority block of UpdateTodo. -/
def updatePriorityStep (now : Instant) (req : UpdateTodoRequest) (todo : Todo) : Except GoError Todo :=
  match req.Priority with
  | none => .ok todo
  | some s =>
    match NewPriority s with
    | .error e => .error (.wrapf "invalid priority" (.domain e))
    | .ok priority =>
      match todo.UpdatePriority now priority with
      | .error e => .error (.wrapf "updating priority" (.domain e))
      | .ok t => .ok t

/-- The due-date block of UpdateTodo: a present zero value clears the
due date, any other present value must parse through NewDueDate. -/
def updateDueDateStep (now : Instant) (req : UpdateTodoRequest) (todo : Todo) : Except GoError Todo :=
  match req.DueDate with
  | none => .ok todo
  | some d =>
    if d = 0 then
      match todo.UpdateDueDate now none with
      | .error e => .error (.wrapf "updating due date" (.domain e))
      | .ok t => .ok t
    else
      match NewDueDate d now with
      | .error e => .error (.wrapf "invalid due date" (.domain e))
      | .ok dd =>
        match todo.UpdateDueDate now (some dd) with
        | .error e => .error (.wrapf "updating due date" (.domain e))
        | .ok t => .ok t

/-- The status block of UpdateTodo. -/
def updateStatusStep (now : Instant) (req : UpdateTodoRequest) (todo : Todo) : Except GoError Todo :=
  match req.Status with
  | none => .ok todo
  | some s =>
    match NewTaskStatus s with
    | .error e => .error (.wrapf "invalid status" (.domain e))
    | .ok status =>
      match todo.UpdateStatus now status with
      | .error e => .error (.wrapf "updating status" (.domain e))
      | .ok t => .ok t

/-- The five field blocks of UpdateTodo in source order; returns the
aggregate as mutated so far together with the first failure if any. -/
def applyUpdates (now : Instant) (req : UpdateTodoRequest) (todo : Todo) : Todo × Option GoError :=
  match updateTitleStep now req todo with
  | .error e => (todo, some e)
  | .ok t1 =>
  match updateDescriptionStep now req t1 with
  | .error e => (t1, some e)
  | .ok t2 =>
  match updatePriorityStep now req t2 with
  | .error e => (t2, some e)
  | .ok t3 =>
  match updateDueDateStep now req t3 with
  | .error e => (t3, some e)
  | .ok t4 =>
  match updateStatusStep now req t4 with
  | .error e => (t4, some e)
  | .ok t5 => (t5, none)

/-- UpdateTodo use case: parse the id, FindByID, run the five field
blocks, Update, Dispatch, clear the events, map the response. -/
def UpdateTodo (env : PortEnv) (id : String) (now : Instant) (req : UpdateTodoRequest) : ServiceOutcome :=
  match ParseTodoID id with
  | .error e => { result := .error (.wrapf "invalid todo ID" (.domain e)), todo := none, calls := [] }
  | .ok todoID =>
  match env.findResult with
  | .error e => { result := .error (.wrapf "finding todo" e), todo := none, calls := [.findByID todoID] }
  | .ok todo0 =>
  match applyUpdates now req todo0 with
  | (t, some e) => { result := .error e, todo := some t, calls := [.findByID todoID] }
  | (t, none) =>
  match env.updateResult with
  | some e =>
    { result := .error (.wrapf "updating todo" e), todo := some t,
      calls := [.findByID todoID, .update todoID] }
  | none =>
  match env.dispatchResult with
  | some e =>
    { result := .error (.wrapf "dispatching events" e), todo := some t,
      calls := [.findByID todoID, .update todoID, .dispatch t.Events] }
  | none =>
    { result := .ok (MapTodoToResponse t.ClearEvents), todo := some t.ClearEvents,
      calls := [.findByID todoID, .update todoID, .dispatch t.Events] }

/-- CompleteTodo use case: parse the id, FindByID, Complete, Update,
Dispatch, clear the events, map the response. -/
def CompleteTodo (env : PortEnv) (id : String) (now : Instant) : ServiceOutcome :=
  match ParseTodoID id with
  | .error e => { result := .error (.wrapf "invalid todo ID" (.domain e)), todo := none, calls := [] }
  | .ok todoID =>
  match env.findResult with
  | .error e => { result := .error (.wrapf "finding todo" e), todo := none, calls := [.findByID todoID] }
  | .ok todo0 =>
  match todo0.Complete now with
  | .error e =>
    { result := .error (.wrapf "completing todo" (.domain e)), todo := some todo0,
      calls := [.findByID todoID] }
  | .ok t =>
  match env.updateResult with
  | some e =>
    { result := .error (.wrapf "updating todo" e), todo := some t,
      calls := [.findByID todoID, .update todoID] }
  | none =>
  match env.dispatchResult with
  | some e =>
    { result := .error (.wrapf "dispatching events" e), todo := some t,
      calls := [.findByID todoID, .update todoID, .dispatch t.Events] }
  | none =>
    { result := .ok (MapTodoToResponse t.ClearEvents), todo := some t.ClearEvents,
      calls := [.findByID todoID, .update todoID, .dispatch t.Events] }

/-- ReopenTodo use case: parse the id, FindByID, Reopen, Update,
Dispatch, clear the events, map the response. -/
def ReopenTodo (env : PortEnv) (id : String) (now : Instant) : ServiceOutcome :=
  match ParseTodoID id with
  | .error e => { result := .error (.wrapf "invalid todo ID" (.domain e)), todo := none, calls := [] }
  | .ok todoID =>
  match env.findResult with
  | .error e => { result := .error (.wrapf "finding todo" e), todo := none, calls := [.findByID todoID] }
  | .ok todo0 =>
  match todo0.Reopen now with
  | .error e =>
    { result := .error (.wrapf "reopening todo" (.domain e)), todo := some todo0,
      calls := [.findByID todoID] }
  | .ok t =>
  match env.updateResult with
  | some e =>
    { result := .error (.wrapf "updating todo" e), todo := some t,
      calls := [.findByID todoID, .update todoID] }
  | none =>
  match env.dispatchResult with
  | some e =>
    { result := .error (.wrapf "dispatching events" e), todo := some t,
      calls := [.findByID todoID, .update todoID, .dispatch t.Events] }
  | none =>
    { result := .ok (MapTodoToResponse t.ClearEvents), todo := some t.ClearEvents,
      calls := [.findByID todoID, .update todoID, .dispatch t.Events] }

/-- DeleteTodo use case: parse the id, Delete by id without loading the
aggregate, then synthesize and dispatch a single TodoDeleted event. -/
def DeleteTodo (env : PortEnv) (id : String) (now : Instant) : DeleteOutcome :=
  match ParseTodoID id with
  | .error e => { result := .error (.wrapf "invalid todo ID" (.domain e)), calls := [] }
  | .ok todoID =>
  match env.deleteResult with
  | some e => { result := .error (.wrapf "deleting todo" e), calls := [.delete todoID] }
  | none =>
  match env.dispatchResult with
  | some e =>
    { result := .error (.wrapf "dispatching events" e),
      calls := [.delete todoID, .dispatch [NewTodoDeletedEvent todoID now]] }
  | none =>
    { result := .ok (), calls := [.delete todoID, .dispatch [NewTodoDeletedEvent todoID now]] }

/-- ListTodos use case: validate the optional status and priority
filters, FindAll, map the responses with their count. -/
def ListTodos (env : PortEnv) (filters : ListFilters) : ListOutcome :=
  match (match filters.Status with
         | none => Except.ok (none : Option TaskStatus)
         | some s => (NewTaskStatus s).map some) with
  | .error e => { result := .error (.wrapf "invalid status filter" (.domain e)), calls := [] }
  | .ok _ =>
  match (match filters.Priority with
         | none => Except.ok (none : Option Priority)
         | some p => (NewPriority p).map some) with
  | .error e => { result := .error (.wrapf "invalid priority filter" (.domain e)), calls := [] }
  | .ok _ =>
  match env.findAllResult with
  | .error e => { result := .error (.wrapf "finding todos" e), calls := [.findAll] }
  | .ok todos =>
    { result := .ok { Todos := MapTodosToResponse todos, TotalCount := todos.length },
      calls := [.findAll] }

/-- Protobuf priority enumeration of the Connect handler layer. -/
inductive ProtoPriority where
  | unspecified
  | low
  | medium
  | high
  | urgent
deriving DecidableEq

/-- mapPriorityFromProto of the Connect handler: the switch maps each
named value to its lowercase string and every other value, including the
unspecified zero value, to medium through the default branch. -/
def mapPriorityFromProto : ProtoPriority → String
  | .low => "low"
  | .medium => "medium"
  | .high => "high"
  | .urgent => "urgent"
  | .unspecified => "medium"

/-- The public mutating operations of the aggregate, one constructor per
method. -/
inductive TodoOp where
  | updateTitle (newTitle : TaskTitle)
  | updateDescription (newDescription : String)
  | updatePriority (newPriority : Priority)
  | updateDueDate (newDueDate : Option DueDate)
  | updateStatus (newStatus : TaskStatus)
  | complete
  | reopen
  | cancel
  | markInProgress
deriving DecidableEq

/-- Invoke one aggregate method. -/
def applyOp (t : Todo) (now : Instant) : TodoOp → Except DomainError Todo
  | .updateTitle x => t.UpdateTitle now x
  | .updateDescription x => t.UpdateDescription now x
  | .updatePriority x => t.UpdatePriority now x
  | .updateDueDate x => t.UpdateDueDate now x
  | .updateStatus x => t.UpdateStatus now x
  | .complete => t.Complete now
  | .reopen => t.Reopen now
  | .cancel => t.Cancel now
  | .markInProgress => t.MarkInProgress now

/-- State after calling one method: the methods check before they
mutate, so a failing call leaves the aggregate unchanged. -/
def stepOp (t : Todo) (now : Instant) (op : TodoOp) : Todo :=
  match applyOp t now op with
  | .ok t2 => t2
  | .error _ => t

/-- State after a sequence of method calls, each at its own instant. -/
def runOps (t : Todo) : List (Instant × TodoOp) → Todo
  | [] => t
  | (now, op) :: rest => runOps (stepOp t now op) rest

/-- The completed-at invariant of the spec: completedAt is present
exactly when the status is completed. -/
def completedAtInvariant (t : Todo) : Bool :=
  t.completedAt.isSome == t.status.IsCompleted

/-- The validation-error group of errors.go: the structured field error
and the five validation sentinels. -/
def DomainError.isValidationError : DomainError → Bool
  | .validationError _ _ => true
  | .errInvalidTitle => true
  | .errInvalidDueDate => true
  | .errInvalidPriority => true
  | .errInvalidStatus => true
  | .errInvalidID => true
  | _ => false

/-- Unwrap fmt.Errorf wrappings down to a validation error, modelling
the errors.As classification of the handler. -/
def GoError.isValidationFailure : GoError → Bool
  | .domain d => d.isValidationError
  | .adapterFailure _ => false
  | .wrapf _ e => e.isValidationFailure

/-- A use-case outcome whose result is a validation failure. -/
def outcomeFailsValidation (o : ServiceOutcome) : Bool :=
  match o.result with
  | .error e => e.isValidationFailure
  | .ok _ => false

/-- A List outcome whose result is a validation failure. -/
def listOutcomeFailsValidation (o : ListOutcome) : Bool :=
  match o.result with
  | .error e => e.isValidationFailure
  | .ok _ => false

/-- All external-facing fields of a Create request pass value-object
validation. -/
def createReqValid (now : Instant) (req : CreateTodoRequest) : Bool :=
  (NewTaskTitle req.Title).isOk && (NewPriority req.Priority).isOk &&
  (parseDueDateOpt req.DueDate now).isOk

/-- The provided title of an Update request, if any, passes
validation. -/
def titleFieldValid (req : UpdateTodoRequest) : Bool :=
  match req.Title with
  | none => true
  | some s => (NewTaskTitle s).isOk

/-- The provided priority of an Update request, if any, passes
validation. -/
def priorityFieldValid (req : UpdateTodoRequest) : Bool :=
  match req.Priority with
  | none => true
  | some s => (NewPriority s).isOk

/-- The provided due date of an Update request, if any, is the clearing
sentinel or passes validation. -/
def dueDateFieldValid (now : Instant) (req : UpdateTodoRequest) : Bool :=
  match req.DueDate with
  | none => true
  | some d => d == 0 || (NewDueDate d now).isOk

/-- The provided status of an Update request, if any, passes
validation. -/
def statusFieldValid (req : UpdateTodoRequest) : Bool :=
  match req.Status with
  | none => true
  | some s => (NewTaskStatus s).isOk

/-- All provided fields of an Update request pass value-object
validation. -/
def updateFieldsValid (now : Instant) (req : UpdateTodoRequest) : Bool :=
  titleFieldValid req && priorityFieldValid req &&
  dueDateFieldValid now req && statusFieldValid req

/-- The optional status filter of a List request, if any, passes
validation. -/
def statusFilterValid (filters : ListFilters) : Bool :=
  match filters.Status with
  | none => true
  | some s => (NewTaskStatus s).isOk

/-- The optional priority filter of a List request, if any, passes
validation. -/
def priorityFilterValid (filters : ListFilters) : Bool :=
  match filters.Priority with
  | none => true
  | some s => (NewPriority s).isOk

/-- The optional filters of a List request pass value-object
validation. -/
def listFiltersValid (filters : ListFilters) : Bool :=
  statusFilterValid filters && priorityFilterValid filters

/-- A fixed well-formed UUID string used by the concrete scenarios. -/
def uuidA : String :=
  "a0eebc99-9c0b-4ef8-bb6d-6bb9bd380a11"

/-- A fixed valid title used by the concrete scenarios. -/
def titleA : TaskTitle :=
  ⟨"Buy groceries"⟩

/-- A stored pending todo as a repository adapter would reconstitute
it. -/
def todoStored : Todo :=
  ReconstituteTodo uuidA titleA "" .pending .medium none 0 0 none

/-- Port environment in which every call succeeds; FindByID and FindAll
return the stored fixture. -/
def envAllOk : PortEnv :=
  { saveResult := none, findResult := .ok todoStored, updateResult := none,
    deleteResult := none, findAllResult := .ok [todoStored], dispatchResult := none }

/-- Port environment in which only the event dispatch fails. -/
def envDispatchFail : PortEnv :=
  { envAllOk with dispatchResult := some (.adapterFailure "dispatch failed") }

/-- The stored fixture completed at instant 5, as Complete leaves it. -/
def todoCompleted5 : Todo :=
  { todoStored with
    status := .completed
    completedAt := some 5
    updatedAt := 5
    events := todoStored.events ++ [.todoCompleted todoStored.id 5 5] }

/-- The stored fixture with a cancelled status. -/
def todoCancelledStored : Todo :=
  { todoStored with status := .cancelled }

/-- C2: For all (from, to) pairs of TaskStatus values, CanTransitionTo
is false whenever from is Completed and to is not Pending; from
Cancelled it allows Pending, rejects Completed and allows InProgress;
and from Pending or InProgress every destination is allowed. -/
theorem c2_canTransitionTo_table :
    (∀ dst : TaskStatus, dst ≠ .pending → TaskStatus.CanTransitionTo .completed dst = false) ∧
    TaskStatus.CanTransitionTo .cancelled .pending = true ∧
    TaskStatus.CanTransitionTo .cancelled .completed = false ∧
    TaskStatus.CanTransitionTo .cancelled .inProgress = true ∧
    (∀ dst : TaskStatus, TaskStatus.CanTransitionTo .pending dst = true) ∧
    (∀ dst : TaskStatus, TaskStatus.CanTransitionTo .inProgress dst = true) := by
  decide

/-- C2 witness: a rejected Completed-to-Cancelled transition, obtained
from the table theorem at a concrete destination. -/
theorem c2_canTransitionTo_witness :
    TaskStatus.CanTransitionTo .completed .cancelled = false :=
  c2_canTransitionTo_table.1 .cancelled (by decide)

/-- C9: DueDate construction succeeds exactly when the value is
strictly after now; a value equal to now is rejected with the
invalid-due-date error and now plus one second succeeds. -/
theorem c9_newDueDate_strict_future :
    (∀ value now : Instant, (NewDueDate value now).isOk = true ↔ now < value) ∧
    (∀ now : Instant, NewDueDate now now = .error .errInvalidDueDate) ∧
    (∀ now : Instant, NewDueDate (now + 1) now = .ok ⟨now + 1⟩) := by
  refine ⟨fun value now => ?_, fun now => ?_, fun now => ?_⟩
  · unfold NewDueDate
    split <;> simp_all [Except.isOk, Except.toBool]
  · unfold NewDueDate
    rw [if_neg (lt_irrefl now)]
  · unfold NewDueDate
    rw [if_pos (lt_add_one now)]

/-- C9 witness: the theorem applied at value 1, now 0, and at the
equal-to-now and one-second-later inputs for now equal to 0. -/
theorem c9_newDueDate_witness :
    (NewDueDate 1 0).isOk = true ∧
    NewDueDate 0 0 = .error .errInvalidDueDate ∧
    NewDueDate (0 + 1) 0 = .ok ⟨0 + 1⟩ :=
  ⟨(c9_newDueDate_strict_future.1 1 0).mpr (by decide),
   c9_newDueDate_strict_future.2.1 0,
   c9_newDueDate_strict_future.2.2 0⟩

/-- C5: Complete fails with the cannot-complete-cancelled error on a
cancelled todo; is an idempotent no-op on an already completed todo;
and otherwise sets the completed status, records the completion instant
in completedAt and updatedAt, and enqueues exactly one TodoCompleted
event carrying the completion instant. -/
theorem c5_complete_contract : ∀ (t : Todo) (now : Instant),
    (t.status = .cancelled → t.Complete now = .error .errCannotCompleteCancelled) ∧
    (t.status = .completed → t.Complete now = .ok t) ∧
    (t.status ≠ .cancelled → t.status ≠ .completed →
      t.Complete now = .ok { t with
        status := .completed
        completedAt := some now
        updatedAt := now
        events := t.events ++ [.todoCompleted t.id now now] }) := by
  intro t now
  refine ⟨fun h => ?_, fun h => ?_, fun h1 h2 => ?_⟩ <;>
    cases ht : t.status <;>
    simp_all [Todo.Complete, TaskStatus.IsCancelled, TaskStatus.IsCompleted,
      Todo.addEvent, NewTodoCompletedEvent]

/-- C5 witness: completing the stored pending fixture at instant 5
produces exactly the completed state and the single TodoCompleted
event. -/
theorem c5_complete_witness :
    Todo.Complete todoStored 5 = .ok todoCompleted5 :=
  (c5_complete_contract todoStored 5).2.2 (by decide) (by decide)

/-- C6: Reopen is an idempotent no-op unless the status is Completed or
Cancelled; otherwise it sets the status back to pending, clears
completedAt, refreshes updatedAt and enqueues exactly one TodoReopened
event carrying the prior status; in particular right after a successful
Complete the enqueued payload is the string completed. -/
theorem c6_reopen_contract : ∀ (t : Todo) (now : Instant),
    (t.status ≠ .completed → t.status ≠ .cancelled → t.Reopen now = .ok t) ∧
    (t.status = .completed ∨ t.status = .cancelled →
      t.Reopen now = .ok { t with
        status := .pending
        completedAt := none
        updatedAt := now
        events := t.events ++ [.todoReopened t.id now t.status.String] }) ∧
    (∀ (t2 : Todo) (now2 : Instant), t.status = .pending ∨ t.status = .inProgress →
      t.Complete now = .ok t2 →
      t2.Reopen now2 = .ok { t2 with
        status := .pending
        completedAt := none
        updatedAt := now2
        events := t2.events ++ [.todoReopened t2.id now2 "completed"] }) := by
  intro t now
  refine ⟨fun h1 h2 => ?_, fun h => ?_, fun t2 now2 hst hc => ?_⟩
  · cases ht : t.status <;>
      simp_all [Todo.Reopen, TaskStatus.IsCancelled, TaskStatus.IsCompleted]
  · cases ht : t.status <;>
      simp_all [Todo.Reopen, TaskStatus.IsCancelled, TaskStatus.IsCompleted,
        Todo.addEvent, NewTodoReopenedEvent, TaskStatus.String]
  · have h2 : t2 = { t with
        status := .completed
        completedAt := some now
        updatedAt := now
        events := t.events ++ [.todoCompleted t.id now now] } := by
      cases ht : t.status <;>
        simp_all [Todo.Complete, TaskStatus.IsCancelled, TaskStatus.IsCompleted,
          Todo.addEvent, NewTodoCompletedEvent]
    subst h2
    simp [Todo.Reopen, TaskStatus.IsCancelled, TaskStatus.IsCompleted,
      Todo.addEvent, NewTodoReopenedEvent, TaskStatus.String]

/-- C6 witness: reopening at instant 7 the fixture completed at instant
5 restores pending, clears completedAt and enqueues one TodoReopened
event whose payload is the string completed. -/
theorem c6_reopen_witness :
    Todo.Reopen todoCompleted5 7 =
      .ok { todoCompleted5 with
        status := .pending
        completedAt := none
        updatedAt := 7
        events := todoCompleted5.events ++ [.todoReopened todoCompleted5.id 7 "completed"] } :=
  (c6_reopen_contract todoStored 5).2.2 todoCompleted5 7 (by decide)
    ((c5_complete_contract todoStored 5).2.2 (by decide) (by decide))

/-- C10: MarkInProgress fails with the cannot-modify-completed error
exactly when the status is Completed; it is an idempotent no-op when
already InProgress; otherwise, including from Cancelled, it sets the
status to InProgress, refreshes updatedAt and enqueues one TodoUpdated
event; and the transition table itself admits Cancelled to
InProgress. -/
theorem c10_markInProgress_contract : ∀ (t : Todo) (now : Instant),
    ((t.MarkInProgress now).isOk = false ↔ t.status = .completed) ∧
    (t.status = .completed → t.MarkInProgress now = .error .errCannotModifyCompleted) ∧
    (t.status = .inProgress → t.MarkInProgress now = .ok t) ∧
    (t.status ≠ .completed → t.status ≠ .inProgress →
      t.MarkInProgress now = .ok { t with
        status := .inProgress
        updatedAt := now
        events := t.events ++ [.todoUpdated t.id now] }) ∧
    TaskStatus.CanTransitionTo .cancelled .inProgress = true := by
  intro t now
  refine ⟨?_, fun h => ?_, fun h => ?_, fun h1 h2 => ?_, by decide⟩ <;>
    cases ht : t.status <;>
    simp_all [Todo.MarkInProgress, TaskStatus.IsCompleted, Todo.addEvent,
      NewTodoUpdatedEvent, Except.isOk, Except.toBool]

/-- C10 witness: marking a cancelled fixture in progress at instant 3
succeeds and performs the Cancelled-to-InProgress transition. -/
theorem c10_markInProgress_witness :
    Todo.MarkInProgress todoCancelledStored 3 =
      .ok { todoCancelledStored with
        status := .inProgress
        updatedAt := 3
        events := todoCancelledStored.events ++ [.todoUpdated todoCancelledStored.id 3] } :=
  (c10_markInProgress_contract todoCancelledStored 3).2.2.2.1 (by decide) (by decide)

/-- One method call of any operation other than UpdateStatus preserves
the completed-at invariant: the dedicated methods keep completedAt in
step with the status, and a failing call leaves the aggregate
unchanged. -/
theorem stepOp_preserves_completedAtInvariant (t : Todo) (now : Instant) (op : TodoOp)
    (hop : ∀ s, op ≠ TodoOp.updateStatus s)
    (h : completedAtInvariant t = true) : completedAtInvariant (stepOp t now op) = true := by
  cases op
  case updateStatus s => exact absurd rfl (hop s)
  all_goals
    cases ht : t.status <;>
      simp_all [stepOp, applyOp, Todo.UpdateTitle, Todo.UpdateDescription,
        Todo.UpdatePriority, Todo.UpdateDueDate, Todo.Complete, Todo.Reopen,
        Todo.Cancel, Todo.MarkInProgress, Todo.addEvent, completedAtInvariant,
        TaskStatus.IsCompleted, TaskStatus.IsCancelled]

/-- A sequence of method calls avoiding UpdateStatus preserves the
completed-at invariant. -/
theorem runOps_preserves_completedAtInvariant (ops : List (Instant × TodoOp)) : ∀ (t : Todo),
    (∀ p ∈ ops, ∀ s, p.2 ≠ TodoOp.updateStatus s) → completedAtInvariant t = true →
    completedAtInvariant (runOps t ops) = true := by
  induction ops with
  | nil =>
    intro t _ h
    simpa [runOps] using h
  | cons p rest ih =>
    obtain ⟨now, op⟩ := p
    intro t hops h
    rw [runOps]
    exact ih _ (fun q hq => hops q (List.mem_cons_of_mem _ hq))
      (stepOp_preserves_completedAtInvariant t now op
        (fun s => hops (now, op) (List.mem_cons_self _ _) s) h)

/-- C1 counterexample: from a freshly created (hence pending) todo,
UpdateStatus to Completed succeeds but leaves completedAt empty, so the
state machine reaches a Completed todo whose completedAt is null and
the claimed invariant fails under UpdateStatus. -/
theorem c1_completedAt_invariant_counterexample :
    ((NewTodo uuidA 0 titleA "" .medium none).UpdateStatus 1 .completed).map completedAtInvariant
      = .ok false := by
  decide

/-- C1 amended: for every todo created through the NewTodo factory and
mutated by any sequence of the public mutating operations other than
UpdateStatus (UpdateTitle, UpdateDescription, UpdatePriority,
UpdateDueDate, Complete, Reopen, Cancel, MarkInProgress), completedAt
is non-null exactly when the status is Completed; UpdateStatus is
excluded because it never touches completedAt. -/
theorem c1_completedAt_invariant_amended :
    ∀ (id : TodoID) (now : Instant) (title : TaskTitle) (description : String)
      (priority : Priority) (dueDate : Option DueDate) (ops : List (Instant × TodoOp)),
    (∀ p ∈ ops, ∀ s, p.2 ≠ TodoOp.updateStatus s) →
    completedAtInvariant (runOps (NewTodo id now title description priority dueDate) ops) = true := by
  intro id now title description priority dueDate ops hops
  refine runOps_preserves_completedAtInvariant ops _ hops ?_
  simp [NewTodo, Todo.addEvent, completedAtInvariant, TaskStatus.IsCompleted]

/-- C1 witness: the amended theorem applied to a concrete creation
followed by complete, reopen, cancel and markInProgress calls. -/
theorem c1_completedAt_invariant_witness :
    completedAtInvariant (runOps (NewTodo uuidA 0 titleA "" .medium none)
      [(1, .complete), (2, .reopen), (3, .cancel), (4, .markInProgress)]) = true :=
  c1_completedAt_invariant_amended uuidA 0 titleA "" .medium none
    [(1, .complete), (2, .reopen), (3, .cancel), (4, .markInProgress)] (by decide)

/-- C8: TaskTitle construction trims first and succeeds exactly when
the trimmed text has byte length between 1 and 200, storing the trimmed
text; the empty (including all-whitespace) and over-long cases fail
with a validation error naming the title field; and a failing title
short-circuits CreateTodo before any aggregate is constructed and
before any port call. -/
theorem c8_taskTitle_contract :
    (∀ title : String, (NewTaskTitle title).isOk = true ↔
        1 ≤ utf8Len (trimSpace title) ∧ utf8Len (trimSpace title) ≤ 200) ∧
    (∀ title tt, NewTaskTitle title = .ok tt → tt.value = trimSpace title) ∧
    (∀ title, utf8Len (trimSpace title) = 0 →
        NewTaskTitle title = .error (.validationError "title" "cannot be empty")) ∧
    (∀ title, 200 < utf8Len (trimSpace title) →
        NewTaskTitle title = .error (.validationError "title" "cannot exceed 200 characters")) ∧
    (∀ env id now req e, NewTaskTitle req.Title = .error e →
        (CreateTodo env id now req).result = .error (.wrapf "invalid title" (.domain e)) ∧
        (CreateTodo env id now req).todo = none ∧
        (CreateTodo env id now req).calls = []) := by
  refine ⟨fun title => ?_, fun title tt h => ?_, fun title h => ?_, fun title h => ?_,
    fun env id now req e h => ?_⟩
  · by_cases h0 : utf8Len (trimSpace title) = 0
    · simp [NewTaskTitle, h0, Except.isOk, Except.toBool]
    · by_cases h2 : utf8Len (trimSpace title) > 200 <;>
        simp [NewTaskTitle, h0, h2, Except.isOk, Except.toBool] <;>
        omega
  · simp only [NewTaskTitle] at h
    split_ifs at h with h0 h2
    injection h with h3
    rw [← h3]
  · simp only [NewTaskTitle]
    rw [if_pos h]
  · simp only [NewTaskTitle]
    rw [if_neg (by omega), if_pos h]
  · simp [CreateTodo, h]

/-- C8 witness: a padded valid title passes, an all-whitespace title
fails with the field-naming validation error, and a Create request with
an empty title makes no port call, builds no aggregate and returns the
wrapped title error. -/
theorem c8_taskTitle_witness :
    (NewTaskTitle "  Buy groceries  ").isOk = true ∧
    NewTaskTitle "   " = .error (.validationError "title" "cannot be empty") ∧
    (CreateTodo envAllOk uuidA 0
      { Title := "", Description := "", Priority := "medium", DueDate := none }).todo = none ∧
    (CreateTodo envAllOk uuidA 0
      { Title := "", Description := "", Priority := "medium", DueDate := none }).calls = [] :=
  ⟨(c8_taskTitle_contract.1 "  Buy groceries  ").mpr (by decide),
   c8_taskTitle_contract.2.2.1 "   " (by decide),
   (c8_taskTitle_contract.2.2.2.2 envAllOk uuidA 0
      { Title := "", Description := "", Priority := "medium", DueDate := none }
      (.validationError "title" "cannot be empty") (by decide)).2.1,
   (c8_taskTitle_contract.2.2.2.2 envAllOk uuidA 0
      { Title := "", Description := "", Priority := "medium", DueDate := none }
      (.validationError "title" "cannot be empty") (by decide)).2.2⟩

/-- C3 counterexample: a Create request whose priority string is empty
does not succeed with a Medium default; the use case rejects it with
the invalid-priority validation error. -/
theorem c3_priority_default_counterexample :
    (CreateTodo envAllOk uuidA 0
      { Title := "Buy groceries", Description := "", Priority := "", DueDate := none }).result
      = .error (.wrapf "invalid priority" (.domain .errInvalidPriority)) := by
  decide

/-- C3 amended: the application-level Create use case applies no
default: with a valid title, an empty priority string fails with the
invalid-priority error before any port call. The Medium default lives
upstream: the Connect handler proto mapping sends the unspecified
priority to the string medium, NewPriority parses that string to
Medium, DefaultPriority returns Medium, and a Create request carrying
the handler-mapped string yields a todo whose priority is medium. -/
theorem c3_priority_default_amended :
    mapPriorityFromProto .unspecified = "medium" ∧
    DefaultPriority = .medium ∧
    NewPriority (mapPriorityFromProto .unspecified) = .ok .medium ∧
    NewPriority "" = .error .errInvalidPriority ∧
    (∀ env id now req, req.Priority = "" → (NewTaskTitle req.Title).isOk = true →
      (CreateTodo env id now req).result
        = .error (.wrapf "invalid priority" (.domain .errInvalidPriority)) ∧
      (CreateTodo env id now req).calls = []) ∧
    (∀ env id now req, env.saveResult = none → env.dispatchResult = none →
      (NewTaskTitle req.Title).isOk = true → (parseDueDateOpt req.DueDate now).isOk = true →
      req.Priority = mapPriorityFromProto .unspecified →
      (CreateTodo env id now req).result.map TodoResponse.Priority = .ok "medium") := by
  refine ⟨by decide, by decide, by decide, by decide,
    fun env id now req hP hT => ?_, fun env id now req hs hd hT hD hP => ?_⟩
  · cases hT2 : NewTaskTitle req.Title with
    | error e =>
      rw [hT2] at hT
      simp [Except.isOk, Except.toBool] at hT
    | ok title =>
      have hPe : NewPriority req.Priority = .error .errInvalidPriority := by
        rw [hP]; decide
      simp [CreateTodo, hT2, hPe]
  · cases hT2 : NewTaskTitle req.Title with
    | error e =>
      rw [hT2] at hT
      simp [Except.isOk, Except.toBool] at hT
    | ok title =>
      have hPm : NewPriority req.Priority = .ok .medium := by
        rw [hP]; decide
      cases hD2 : parseDueDateOpt req.DueDate now with
      | error e =>
        rw [hD2] at hD
        simp [Except.isOk, Except.toBool] at hD
      | ok dd =>
        simp [CreateTodo, hT2, hPm, hD2, hs, hd, Except.map, MapTodoToResponse,
          Todo.ClearEvents, NewTodo, Todo.addEvent, Priority.String]

/-- C3 witness: the amended theorem applied to the all-success
environment with the handler-mapped medium priority string. -/
theorem c3_priority_default_witness :
    (CreateTodo envAllOk uuidA 0
      { Title := "Buy groceries", Description := "", Priority := mapPriorityFromProto .unspecified,
        DueDate := none }).result.map TodoResponse.Priority = .ok "medium" :=
  c3_priority_default_amended.2.2.2.2.2 envAllOk uuidA 0
    { Title := "Buy groceries", Description := "", Priority := mapPriorityFromProto .unspecified,
      DueDate := none } rfl rfl (by decide) (by decide) rfl

/-- A ParseTodoID failure always carries the invalid-id error. -/
theorem parseTodoID_not_ok {id : String} (h : (ParseTodoID id).isOk = false) :
    ParseTodoID id = .error .errInvalidID := by
  unfold ParseTodoID at h ⊢
  split_ifs at h ⊢ <;> simp_all [Except.isOk, Except.toBool]

/-- A NewTaskTitle failure always carries a validation error. -/
theorem newTaskTitle_error_validation {s : String} {e : DomainError}
    (h : NewTaskTitle s = .error e) : e.isValidationError = true := by
  simp only [NewTaskTitle] at h
  split_ifs at h <;> injection h with h2 <;> rw [← h2] <;> rfl

/-- A NewPriority failure always carries the invalid-priority error. -/
theorem newPriority_error_eq {s : String} {e : DomainError}
    (h : NewPriority s = .error e) : e = .errInvalidPriority := by
  unfold NewPriority at h
  split at h <;> simp_all

/-- A NewTaskStatus failure always carries the invalid-status error. -/
theorem newTaskStatus_error_eq {s : String} {e : DomainError}
    (h : NewTaskStatus s = .error e) : e = .errInvalidStatus := by
  unfold NewTaskStatus at h
  split at h <;> simp_all

/-- A parseDueDateOpt failure always carries the invalid-due-date
error. -/
theorem parseDueDateOpt_error_eq {d : Option Instant} {now : Instant} {e : DomainError}
    (h : parseDueDateOpt d now = .error e) : e = .errInvalidDueDate := by
  unfold parseDueDateOpt NewDueDate at h
  split at h
  · simp at h
  · split_ifs at h <;> simp_all [Except.map]

/-- A successful title block implies the provided title was valid. -/
theorem updateTitleStep_ok_fieldValid {now : Instant} {req : UpdateTodoRequest} {todo t1 : Todo}
    (h : updateTitleStep now req todo = .ok t1) : titleFieldValid req = true := by
  unfold titleFieldValid
  cases hT : req.Title with
  | none => rfl
  | some s =>
    simp only [updateTitleStep, hT] at h
    cases hN : NewTaskTitle s with
    | error e => simp [hN] at h
    | ok ti => simp [hN, Except.isOk, Except.toBool]

/-- A successful priority block implies the provided priority was
valid. -/
theorem updatePriorityStep_ok_fieldValid {now : Instant} {req : UpdateTodoRequest} {todo t1 : Todo}
    (h : updatePriorityStep now req todo = .ok t1) : priorityFieldValid req = true := by
  unfold priorityFieldValid
  cases hP : req.Priority with
  | none => rfl
  | some s =>
    simp only [updatePriorityStep, hP] at h
    cases hN : NewPriority s with
    | error e => simp [hN] at h
    | ok p => simp [hN, Except.isOk, Except.toBool]

/-- A successful due-date block implies the provided due date was the
clearing sentinel or valid. -/
theorem updateDueDateStep_ok_fieldValid {now : Instant} {req : UpdateTodoRequest} {todo t1 : Todo}
    (h : updateDueDateStep now req todo = .ok t1) : dueDateFieldValid now req = true := by
  unfold dueDateFieldValid
  cases hD : req.DueDate with
  | none => rfl
  | some d =>
    simp only [updateDueDateStep, hD] at h
    by_cases hz : d = 0
    · simp [hz]
    · rw [if_neg hz] at h
      cases hN : NewDueDate d now with
      | error e => simp [hN] at h
      | ok dd => simp [hz, hN, Except.isOk, Except.toBool]

/-- A successful status block implies the provided status was valid. -/
theorem updateStatusStep_ok_fieldValid {now : Instant} {req : UpdateTodoRequest} {todo t1 : Todo}
    (h : updateStatusStep now req todo = .ok t1) : statusFieldValid req = true := by
  unfold statusFieldValid
  cases hS : req.Status with
  | none => rfl
  | some s =>
    simp only [updateStatusStep, hS] at h
    cases hN : NewTaskStatus s with
    | error e => simp [hN] at h
    | ok st => simp [hN, Except.isOk, Except.toBool]

/-- When all five field blocks succeed, every provided field of the
Update request was valid. -/
theorem applyUpdates_ok_fieldsValid {now : Instant} {req : UpdateTodoRequest} {t t5 : Todo}
    (h : applyUpdates now req t = (t5, none)) : updateFieldsValid now req = true := by
  unfold applyUpdates at h
  split at h
  · simp at h
  · rename_i t1 h1
    split at h
    · simp at h
    · rename_i t2 h2
      split at h
      · simp at h
      · rename_i t3 h3
        split at h
        · simp at h
        · rename_i t4 h4
          split at h
          · simp at h
          · rename_i t5b h5
            unfold updateFieldsValid
            rw [updateTitleStep_ok_fieldValid h1, updatePriorityStep_ok_fieldValid h3,
              updateDueDateStep_ok_fieldValid h4, updateStatusStep_ok_fieldValid h5]
            rfl

/-- An Update request carrying only an invalid (empty) title. -/
def reqTitleEmpty : UpdateTodoRequest :=
  { Title := some "", Description := none, Priority := none, DueDate := none, Status := none }

/-- An Update request carrying only an invalid priority string. -/
def reqBadPriority : UpdateTodoRequest :=
  { Title := none, Description := none, Priority := some "wrong", DueDate := none, Status := none }

/-- List filters carrying an invalid priority string. -/
def filtersBadPriority : ListFilters :=
  { Status := none, Priority := some "wrong", Limit := none, Offset := none }

/-- C4 counterexample: an Update on an existing todo with an invalid
(empty) title fails validation yet has already made a FindByID
repository call: field validation in UpdateTodo runs after the fetch,
so a validation failure does not imply that no repository call
occurred. -/
theorem c4_validation_counterexample :
    outcomeFailsValidation (UpdateTodo envAllOk uuidA 5 reqTitleEmpty) = true ∧
    (UpdateTodo envAllOk uuidA 5 reqTitleEmpty).calls = [.findByID uuidA] := by
  decide

/-- C4 amended: Create and List reject invalid fields with a validation
error before any port call; every id-taking use case rejects a
malformed id before any port call; and for Update an invalid provided
field makes the use case fail after the FindByID read but before the
Update write and before any dispatcher call, so exactly the one read
was performed. -/
theorem c4_validation_before_ports_amended :
    (∀ env id now req, createReqValid now req = false →
      outcomeFailsValidation (CreateTodo env id now req) = true ∧
      (CreateTodo env id now req).calls = []) ∧
    (∀ env id, (ParseTodoID id).isOk = false →
      (GetTodo env id).result = .error (.wrapf "invalid todo ID" (.domain .errInvalidID)) ∧
      (GetTodo env id).calls = []) ∧
    (∀ env id now req, (ParseTodoID id).isOk = false →
      (UpdateTodo env id now req).result = .error (.wrapf "invalid todo ID" (.domain .errInvalidID)) ∧
      (UpdateTodo env id now req).calls = []) ∧
    (∀ env id now, (ParseTodoID id).isOk = false →
      (CompleteTodo env id now).result = .error (.wrapf "invalid todo ID" (.domain .errInvalidID)) ∧
      (CompleteTodo env id now).calls = []) ∧
    (∀ env id now, (ParseTodoID id).isOk = false →
      (ReopenTodo env id now).result = .error (.wrapf "invalid todo ID" (.domain .errInvalidID)) ∧
      (ReopenTodo env id now).calls = []) ∧
    (∀ env id now, (ParseTodoID id).isOk = false →
      (DeleteTodo env id now).result = .error (.wrapf "invalid todo ID" (.domain .errInvalidID)) ∧
      (DeleteTodo env id now).calls = []) ∧
    (∀ env filters, listFiltersValid filters = false →
      listOutcomeFailsValidation (ListTodos env filters) = true ∧
      (ListTodos env filters).calls = []) ∧
    (∀ env id now req tid t, ParseTodoID id = .ok tid → env.findResult = .ok t →
      updateFieldsValid now req = false →
      (UpdateTodo env id now req).result.isOk = false ∧
      (UpdateTodo env id now req).calls = [.findByID tid]) := by
  refine ⟨fun env id now req h => ?_, fun env id h => ?_, fun env id now req h => ?_,
    fun env id now h => ?_, fun env id now h => ?_, fun env id now h => ?_,
    fun env filters h => ?_, fun env id now req tid t hpid hfind hinv => ?_⟩
  · cases hT : NewTaskTitle req.Title with
    | error e =>
      have hv := newTaskTitle_error_validation hT
      simp [CreateTodo, hT, outcomeFailsValidation, GoError.isValidationFailure, hv]
    | ok title =>
      cases hP : NewPriority req.Priority with
      | error e =>
        have hv := newPriority_error_eq hP
        subst hv
        simp [CreateTodo, hT, hP, outcomeFailsValidation, GoError.isValidationFailure,
          DomainError.isValidationError]
      | ok prio =>
        cases hD : parseDueDateOpt req.DueDate now with
        | error e =>
          have hv := parseDueDateOpt_error_eq hD
          subst hv
          simp [CreateTodo, hT, hP, hD, outcomeFailsValidation, GoError.isValidationFailure,
            DomainError.isValidationError]
        | ok dd =>
          exfalso
          unfold createReqValid at h
          rw [hT, hP, hD] at h
          simp [Except.isOk, Except.toBool] at h
  · have he := parseTodoID_not_ok h
    simp [GetTodo, he]
  · have he := parseTodoID_not_ok h
    simp [UpdateTodo, he]
  · have he := parseTodoID_not_ok h
    simp [CompleteTodo, he]
  · have he := parseTodoID_not_ok h
    simp [ReopenTodo, he]
  · have he := parseTodoID_not_ok h
    simp [DeleteTodo, he]
  · cases hS : filters.Status with
    | none =>
      cases hP : filters.Priority with
      | none =>
        exfalso
        unfold listFiltersValid statusFilterValid priorityFilterValid at h
        rw [hS, hP] at h
        simp at h
      | some p =>
        cases hNP : NewPriority p with
        | error e =>
          have hv := newPriority_error_eq hNP
          subst hv
          simp [ListTodos, hS, hP, hNP, Except.map, listOutcomeFailsValidation,
            GoError.isValidationFailure, DomainError.isValidationError]
        | ok pr =>
          exfalso
          unfold listFiltersValid statusFilterValid priorityFilterValid at h
          rw [hS, hP] at h
          simp [hNP, Except.isOk, Except.toBool] at h
    | some s =>
      cases hNS : NewTaskStatus s with
      | error e =>
        have hv := newTaskStatus_error_eq hNS
        subst hv
        simp [ListTodos, hS, hNS, Except.map, listOutcomeFailsValidation,
          GoError.isValidationFailure, DomainError.isValidationError]
      | ok st =>
        cases hP : filters.Priority with
        | none =>
          exfalso
          unfold listFiltersValid statusFilterValid priorityFilterValid at h
          rw [hS, hP] at h
          simp [hNS, Except.isOk, Except.toBool] at h
        | some p =>
          cases hNP : NewPriority p with
          | error e =>
            have hv := newPriority_error_eq hNP
            subst hv
            simp [ListTodos, hS, hNS, hP, hNP, Except.map, listOutcomeFailsValidation,
              GoError.isValidationFailure, DomainError.isValidationError]
          | ok pr =>
            exfalso
            unfold listFiltersValid statusFilterValid priorityFilterValid at h
            rw [hS, hP] at h
            simp [hNS, hNP, Except.isOk, Except.toBool] at h
  · cases happ : applyUpdates now req t with
    | mk t1 oe =>
      cases oe with
      | none => exact absurd (applyUpdates_ok_fieldsValid happ) (by simp [hinv])
      | some e =>
        simp [UpdateTodo, hpid, hfind, happ, Except.isOk, Except.toBool]

/-- C4 witness: the amended theorem applied to a malformed id for Get,
to an invalid priority filter for List (a validation failure with no
port call), and to the stored fixture with an invalid priority for
Update. -/
theorem c4_validation_witness :
    ((GetTodo envAllOk "not-a-uuid").result
        = .error (.wrapf "invalid todo ID" (.domain .errInvalidID)) ∧
      (GetTodo envAllOk "not-a-uuid").calls = []) ∧
    (listOutcomeFailsValidation (ListTodos envAllOk filtersBadPriority) = true ∧
      (ListTodos envAllOk filtersBadPriority).calls = []) ∧
    ((UpdateTodo envAllOk uuidA 5 reqBadPriority).result.isOk = false ∧
      (UpdateTodo envAllOk uuidA 5 reqBadPriority).calls = [.findByID uuidA]) :=
  ⟨c4_validation_before_ports_amended.2.1 envAllOk "not-a-uuid" (by decide),
   c4_validation_before_ports_amended.2.2.2.2.2.2.1 envAllOk filtersBadPriority (by decide),
   c4_validation_before_ports_amended.2.2.2.2.2.2.2 envAllOk uuidA 5 reqBadPriority
     uuidA todoStored (by decide) rfl (by decide)⟩

/-- C7: in each persisting use case (Create, Update, Complete, Reopen),
once validation, the domain call and persistence have succeeded, a
dispatch failure makes the use case return the wrapped dispatch error
while the aggregate still holds its pending events; only a successful
dispatch clears the event queue, so the final aggregate is the cleared
one exactly on dispatch success. -/
theorem c7_dispatch_failure_contract :
    (∀ env id now req title prio dd,
      NewTaskTitle req.Title = .ok title → NewPriority req.Priority = .ok prio →
      parseDueDateOpt req.DueDate now = .ok dd → env.saveResult = none →
      (∀ e, env.dispatchResult = some e →
        (CreateTodo env id now req).result = .error (.wrapf "dispatching events" e) ∧
        (CreateTodo env id now req).todo = some (NewTodo id now title req.Description prio dd)) ∧
      (env.dispatchResult = none →
        (CreateTodo env id now req).result.isOk = true ∧
        (CreateTodo env id now req).todo
          = some (NewTodo id now title req.Description prio dd).ClearEvents)) ∧
    (∀ env id now tid t0 t1,
      ParseTodoID id = .ok tid → env.findResult = .ok t0 → t0.Complete now = .ok t1 →
      env.updateResult = none →
      (∀ e, env.dispatchResult = some e →
        (CompleteTodo env id now).result = .error (.wrapf "dispatching events" e) ∧
        (CompleteTodo env id now).todo = some t1) ∧
      (env.dispatchResult = none →
        (CompleteTodo env id now).result.isOk = true ∧
        (CompleteTodo env id now).todo = some t1.ClearEvents)) ∧
    (∀ env id now tid t0 t1,
      ParseTodoID id = .ok tid → env.findResult = .ok t0 → t0.Reopen now = .ok t1 →
      env.updateResult = none →
      (∀ e, env.dispatchResult = some e →
        (ReopenTodo env id now).result = .error (.wrapf "dispatching events" e) ∧
        (ReopenTodo env id now).todo = some t1) ∧
      (env.dispatchResult = none →
        (ReopenTodo env id now).result.isOk = true ∧
        (ReopenTodo env id now).todo = some t1.ClearEvents)) ∧
    (∀ env id now req tid t0 t1,
      ParseTodoID id = .ok tid → env.findResult = .ok t0 → applyUpdates now req t0 = (t1, none) →
      env.updateResult = none →
      (∀ e, env.dispatchResult = some e →
        (UpdateTodo env id now req).result = .error (.wrapf "dispatching events" e) ∧
        (UpdateTodo env id now req).todo = some t1) ∧
      (env.dispatchResult = none →
        (UpdateTodo env id now req).result.isOk = true ∧
        (UpdateTodo env id now req).todo = some t1.ClearEvents)) := by
  refine ⟨fun env id now req title prio dd hT hP hD hs => ⟨fun e hd => ?_, fun hd => ?_⟩,
    fun env id now tid t0 t1 hpid hfind hc hu => ⟨fun e hd => ?_, fun hd => ?_⟩,
    fun env id now tid t0 t1 hpid hfind hr hu => ⟨fun e hd => ?_, fun hd => ?_⟩,
    fun env id now req tid t0 t1 hpid hfind happ hu => ⟨fun e hd => ?_, fun hd => ?_⟩⟩
  · simp [CreateTodo, hT, hP, hD, hs, hd]
  · simp [CreateTodo, hT, hP, hD, hs, hd, Except.isOk, Except.toBool]
  · simp [CompleteTodo, hpid, hfind, hc, hu, hd]
  · simp [CompleteTodo, hpid, hfind, hc, hu, hd, Except.isOk, Except.toBool]
  · simp [ReopenTodo, hpid, hfind, hr, hu, hd]
  · simp [ReopenTodo, hpid, hfind, hr, hu, hd, Except.isOk, Except.toBool]
  · simp [UpdateTodo, hpid, hfind, happ, hu, hd]
  · simp [UpdateTodo, hpid, hfind, happ, hu, hd, Except.isOk, Except.toBool]

/-- C7 witness: the Create component applied to the dispatch-failing
environment (error returned, events still enqueued) and to the
all-success environment (cleared events). -/
theorem c7_dispatch_failure_witness :
    ((CreateTodo envDispatchFail uuidA 0
        { Title := "Buy groceries", Description := "", Priority := "medium", DueDate := none }).result
      = .error (.wrapf "dispatching events" (.adapterFailure "dispatch failed")) ∧
    (CreateTodo envDispatchFail uuidA 0
        { Title := "Buy groceries", Description := "", Priority := "medium", DueDate := none }).todo
      = some (NewTodo uuidA 0 titleA "" .medium none)) ∧
    ((CreateTodo envAllOk uuidA 0
        { Title := "Buy groceries", Description := "", Priority := "medium", DueDate := none }).result.isOk
      = true ∧
    (CreateTodo envAllOk uuidA 0
        { Title := "Buy groceries", Description := "", Priority := "medium", DueDate := none }).todo
      = some (NewTodo uuidA 0 titleA "" .medium none).ClearEvents) :=
  ⟨(c7_dispatch_failure_contract.1 envDispatchFail uuidA 0
      { Title := "Buy groceries", Description := "", Priority := "medium", DueDate := none }
      titleA .medium none (by decide) (by decide) (by decide) rfl).1
      (.adapterFailure "dispatch failed") rfl,
   (c7_dispatch_failure_contract.1 envAllOk uuidA 0
      { Title := "Buy groceries", Description := "", Priority := "medium", DueDate := none }
      titleA .medium none (by decide) (by decide) (by decide) rfl).2 rfl⟩
